import Mathlib

/-!
Shallow embedding of the mesh-generator plugins of the blender-gui
repository (src/plugins/mesh_cylinder.py, mesh_disc.py, mesh_sphere.py,
mesh_torus.py, mesh_tube.py, mesh_twist.py).

Floating-point coordinates are modelled as rationals; the transcendental
functions `cos`, `sin` (and the float constant `pi`) are abstracted as
explicit function/value parameters `cosf`, `sinf`, `piq`, so that every
definition stays executable.  Statements that need actual trigonometric
facts take them as hypotheses at the finitely many points used (all of
which hold for the real functions), or — for the clipped-sphere latitude
computation — use `Real.arccos` / `Real.cos` directly.

Python's `ZeroDivisionError` (raised by `/` whenever the denominator is
zero) is modelled by returning `none`: a builder or deformer returns
`Option` and checks each denominator exactly where the source divides.

A face is the list of vertex indices appended to `f.v` together with the
`f.smooth` flag; negative Python indices `verts[-k]` are translated to
`L - k` where `L` is the vertex-list length at that point.
-/

namespace BlenderGui

/-- A vertex position `(x, y, z)`. -/
abbrev Point : Type := ℚ × ℚ × ℚ

/-- A face: the ordered vertex-index list appended to `f.v`, plus the
`f.smooth` flag. -/
abbrev Face : Type := List ℕ × Bool

/-- A mesh as accumulated in `poly.verts` / `poly.faces` before `PutRaw`. -/
structure Mesh where
  verts : List Point
  faces : List Face
deriving DecidableEq

/-- Embedding of `rot_x` from `mesh_twist.py` (lines 121-124):
`(x, y*c - z*s, y*s + z*c)` with `c = cos angle`, `s = sin angle`. -/
def rot_x (cosf sinf : ℚ → ℚ) (p : Point) (angle : ℚ) : Point :=
  let c := cosf angle
  let s := sinf angle
  (p.1, p.2.1 * c - p.2.2 * s, p.2.1 * s + p.2.2 * c)

/-- Embedding of `rot_y` from `mesh_twist.py` (lines 126-129):
`(x*c - z*s, y, x*s + z*c)`. -/
def rot_y (cosf sinf : ℚ → ℚ) (p : Point) (angle : ℚ) : Point :=
  let c := cosf angle
  let s := sinf angle
  (p.1 * c - p.2.2 * s, p.2.1, p.1 * s + p.2.2 * c)

/-- Embedding of `rot_z` from `mesh_twist.py` (lines 131-134), transcribed verbatim:
the source returns `(x*c - y*s, x*s + y*s, z)` — note the second
component is `x*s + y*s`, not `x*s + y*c`. -/
def rot_z (cosf sinf : ℚ → ℚ) (p : Point) (angle : ℚ) : Point :=
  let c := cosf angle
  let s := sinf angle
  (p.1 * c - p.2.1 * s, p.1 * s + p.2.1 * s, p.2.2)

/-- Left-to-right traversal that stops at the first failing element,
modelling a Python `for` loop whose body may raise. -/
def mapOrFail {α β : Type} (f : α → Option β) : List α → Option (List β)
  | [] => some []
  | x :: xs =>
    match f x with
    | none => none
    | some y => (mapOrFail f xs).map (fun ys => y :: ys)

/-- The twist axis selected by the `Axis` radio buttons of
`mesh_twist.py` (values `'x'`, `'y'`, `'z'` passed to `twist_mesh`). -/
inductive TwistAxis : Type
  | x
  | y
  | z
deriving DecidableEq

/-- The coordinate of a point along a twist axis
(`vertex_list[index][0]` / `[1]` / `[2]`). -/
def axisCoord : TwistAxis → Point → ℚ
  | TwistAxis.x, p => p.1
  | TwistAxis.y, p => p.2.1
  | TwistAxis.z, p => p.2.2

/-- The bounding-box minimum used by the branch for a given axis
(`min_x` / `min_y` / `min_z`). -/
def axisMin (min_x min_y min_z : ℚ) : TwistAxis → ℚ
  | TwistAxis.x => min_x
  | TwistAxis.y => min_y
  | TwistAxis.z => min_z

/-- The bounding-box extent `d` computed by the branch for a given axis
(`max_x - min_x` / `max_y - min_y` / `max_z - min_z`). -/
def axisExtent (min_x max_x min_y max_y min_z max_z : ℚ) : TwistAxis → ℚ
  | TwistAxis.x => max_x - min_x
  | TwistAxis.y => max_y - min_y
  | TwistAxis.z => max_z - min_z

/-- The rotation function applied by the branch for a given axis. -/
def axisRot (cosf sinf : ℚ → ℚ) : TwistAxis → Point → ℚ → Point
  | TwistAxis.x => rot_x cosf sinf
  | TwistAxis.y => rot_y cosf sinf
  | TwistAxis.z => rot_z cosf sinf

/-- Embedding of `twist_mesh` from `mesh_twist.py` (lines 116-176).  Normalizes
`StartFrom`/`EndAt` via `min`/`max` divided by 100, converts `Angle` to
radians (`pi*Angle/180`), then for each baseline vertex computes
`t = (coordinate - axis minimum) / d`; if `StartFrom <= t <= EndAt` the
vertex is rotated about the axis by `Angle*(t - StartFrom)/rd`, else it
is restored unchanged.  The divisions by `d` and by `rd` are exactly the
source's two division sites: a zero denominator yields `none`
(Python raises `ZeroDivisionError`). -/
def twist_mesh (cosf sinf : ℚ → ℚ) (piq : ℚ)
    (min_x max_x min_y max_y min_z max_z : ℚ)
    (vertex_list : List Point) (axis : TwistAxis)
    (Angle StartFrom EndAt : ℚ) : Option (List Point) :=
  let S := min StartFrom EndAt / 100
  let E := max StartFrom EndAt / 100
  let A := piq * Angle / 180
  let d := axisExtent min_x max_x min_y max_y min_z max_z axis
  let rd := E - S
  mapOrFail (fun v =>
    if d = 0 then none
    else
      let t := (axisCoord axis v - axisMin min_x min_y min_z axis) / d
      if S ≤ t ∧ t ≤ E then
        if rd = 0 then none
        else some (axisRot cosf sinf axis v (A * (t - S) / rd))
      else some v) vertex_list

/-- The `MakeVertexRing(vertex_list, r, z)` helper shared (textually) by
`Cylinder` (mesh_cylinder.py lines 105-111) and `Sphere`/`Sphere2`
(mesh_sphere.py): `count` points at `phi = pi*2*i/count`, position
`(r*cos(phi), r*sin(phi), z)`. -/
def makeVertexRing (cosf sinf : ℚ → ℚ) (piq : ℚ) (count : ℕ) (r z : ℚ) :
    List Point :=
  (List.range count).map (fun (i : ℕ) =>
    (r * cosf (piq * 2 * (i : ℚ) / (count : ℚ)),
     r * sinf (piq * 2 * (i : ℚ) / (count : ℚ)), z))

/-- Embedding of `Cylinder` from `mesh_cylinder.py` (lines 97-176).  Emits
`CapDivisions` bottom-cap rings (radius `dr*(i+1)` at `z = 0`),
`Divisions` wall rings (radius `Radius`, `z = dz*i`), `CapDivisions`
top-cap rings (radius `Radius - dr*i` at `z = Height`), stitches
`tvc = 2*(CapDivisions-1) + Divisions + 1` consecutive ring pairs into
`Segments` quads each, appends the two apex vertices `(0,0,0)` and
`(0,0,Height)` and fans each against its innermost/outermost ring.
`none` models the `ZeroDivisionError` of `Radius/CapDivisions` or
`Height/Divisions`; no other input validation exists in the source. -/
def Cylinder (cosf sinf : ℚ → ℚ) (piq : ℚ) (Radius Height : ℚ)
    (Segments Divisions CapDivisions : ℕ) (Smooth : Bool) : Option Mesh :=
  if CapDivisions = 0 then none
  else if Divisions = 0 then none
  else
    let dr := Radius / (CapDivisions : ℚ)
    let dz := Height / (Divisions : ℚ)
    let bottomCap := (List.range CapDivisions).flatMap (fun i =>
      makeVertexRing cosf sinf piq Segments (dr * (i + 1)) 0)
    let wall := (List.range Divisions).flatMap (fun i =>
      makeVertexRing cosf sinf piq Segments Radius (dz * i))
    let topCap := (List.range CapDivisions).flatMap (fun i =>
      makeVertexRing cosf sinf piq Segments (Radius - dr * i) Height)
    let verts := (bottomCap ++ wall ++ topCap) ++ [(0, 0, 0), (0, 0, Height)]
    let tvc := 2 * (CapDivisions - 1) + Divisions + 1
    let skin := (List.range tvc).flatMap (fun i =>
      (List.range Segments).map (fun j =>
        ([Segments * i + j, Segments * i + (j + 1) % Segments,
          Segments * (i + 1) + (j + 1) % Segments, Segments * (i + 1) + j],
         Smooth)))
    let L := Segments * (2 * CapDivisions + Divisions) + 2
    let caps := (List.range Segments).flatMap (fun j =>
      [([L - 2, j, (j + 1) % Segments], Smooth),
       ([L - 1, L - (j + 3), L - ((j + 1) % Segments + 3)], Smooth)])
    some ⟨verts, skin ++ caps⟩

/-- Embedding of `Disc` from `mesh_disc.py` (lines 63-104).  `Subdivisions+1`
concentric rings at radii `InnerRadius + dr*k` (with
`dr = (OuterRadius-InnerRadius)/Subdivisions`), each of `Segments`
points at `alpha = da*i` (with `da = pi*2/Segments`), all at `z = 0`;
adjacent rings stitched into `Segments` quads.  The source never sets
`f.smooth`, so faces carry the default `false`.  `none` models the
`ZeroDivisionError` of the two initial divisions. -/
def Disc (cosf sinf : ℚ → ℚ) (piq : ℚ) (InnerRadius OuterRadius : ℚ)
    (Segments Subdivisions : ℕ) : Option Mesh :=
  if Subdivisions = 0 then none
  else if Segments = 0 then none
  else
    let dr := (OuterRadius - InnerRadius) / (Subdivisions : ℚ)
    let da := piq * 2 / (Segments : ℚ)
    let verts := (List.range (Subdivisions + 1)).flatMap (fun (k : ℕ) =>
      (List.range Segments).map (fun (i : ℕ) =>
        ((InnerRadius + dr * (k : ℚ)) * cosf (da * (i : ℚ)),
         (InnerRadius + dr * (k : ℚ)) * sinf (da * (i : ℚ)), 0)))
    let faces := (List.range Subdivisions).flatMap (fun i =>
      (List.range Segments).map (fun j =>
        ([Segments * i + j, Segments * i + (j + 1) % Segments,
          Segments * (i + 1) + (j + 1) % Segments, Segments * (i + 1) + j],
         false)))
    some ⟨verts, faces⟩

/-- Embedding of `Sphere` from `mesh_sphere.py` (lines 95-156).  `VDivisions-1`
latitude rings at `angle = da*(i+1)` (with `da = 180/VDivisions`),
radius `Radius*sin(angle/180*pi)` and `z = Radius*cos(angle/180*pi)`,
each of `UDivisions` points; then the north and south pole vertices,
`UDivisions*(VDivisions-2)` skin quads and `2*UDivisions` pole-fan
triangles.  `none` models the `ZeroDivisionError` of
`180.0/VDivisions`. -/
def Sphere (cosf sinf : ℚ → ℚ) (piq : ℚ) (Radius : ℚ)
    (UDivisions VDivisions : ℕ) (Smooth : Bool) : Option Mesh :=
  if VDivisions = 0 then none
  else
    let da := (180 : ℚ) / (VDivisions : ℚ)
    let rings := (List.range (VDivisions - 1)).flatMap (fun (i : ℕ) =>
      makeVertexRing cosf sinf piq UDivisions
        (Radius * sinf (da * ((i : ℚ) + 1) / 180 * piq))
        (Radius * cosf (da * ((i : ℚ) + 1) / 180 * piq)))
    let verts := rings ++ [(0, 0, Radius), (0, 0, -Radius)]
    let skin := (List.range (VDivisions - 2)).flatMap (fun i =>
      (List.range UDivisions).map (fun j =>
        ([UDivisions * i + j, UDivisions * i + (j + 1) % UDivisions,
          UDivisions * (i + 1) + (j + 1) % UDivisions,
          UDivisions * (i + 1) + j], Smooth)))
    let L := UDivisions * (VDivisions - 1) + 2
    let fans := (List.range UDivisions).flatMap (fun k =>
      [([L - 1, L - (k + 3), L - ((k + 1) % UDivisions + 3)], Smooth),
       ([L - 2, k, (k + 1) % UDivisions], Smooth)])
    some ⟨verts, skin ++ fans⟩

/-- Embedding of `norm_z` in `Sphere2` (mesh_sphere.py line 178): `1.0 - Clip/50.0`,
the cosine of the clip latitude. -/
noncomputable def sphere2NormZ (Clip : ℝ) : ℝ := 1 - Clip / 50

/-- Embedding of `rang` in `Sphere2` (mesh_sphere.py line 179): the clip latitude in
degrees, `180*acos(norm_z)/pi`. -/
noncomputable def sphere2RangDeg (Clip : ℝ) : ℝ :=
  180 * Real.arccos (sphere2NormZ Clip) / Real.pi

/-- Embedding of `min_z` in `Sphere2` (mesh_sphere.py line 180): the height of the
clip plane, `Radius * cos(rang/180 * pi)`. -/
noncomputable def sphere2MinZ (Radius Clip : ℝ) : ℝ :=
  Radius * Real.cos (sphere2RangDeg Clip / 180 * Real.pi)

/-- The latitude angles (degrees) of the rings emitted by `Sphere2`
(mesh_sphere.py lines 182-188): starting at `rang` and decreasing by
`da = rang/VDivisions` for `VDivisions-1` rings. -/
noncomputable def sphere2RingAngles (Clip : ℝ) (VDivisions : ℕ) : List ℝ :=
  (List.range (VDivisions - 1)).map (fun (i : ℕ) =>
    sphere2RangDeg Clip - sphere2RangDeg Clip / (VDivisions : ℝ) * (i : ℝ))

/-- The row-vector/matrix product `VecMultMat(v, RotationMatrix(angle,
3, "z"))` used by both torus builders: a rotation about the Z axis by
`angle` (degrees — `cosd`/`sind` are the degree-argument cosine and
sine). -/
def rotZMatDeg (cosd sind : ℚ → ℚ) (angle : ℚ) (p : Point) : Point :=
  let c := cosd angle
  let s := sind angle
  (p.1 * c - p.2.1 * s, p.1 * s + p.2.1 * c, p.2.2)

/-- Embedding of `MakeVertexRing(vertex_list, angle)` of the torus builders
(mesh_torus.py lines 118-129 and 175-186): the tube cross-section at
`phi = pi*2*i/MinorDivisions + StartMinorAngle` (radians), placed at
`(MajorRadius + MinorRadius*cos(phi), 0, MinorRadius*sin(phi))` and
revolved about Z by `angle` degrees. -/
def torusRing (cosf sinf cosd sind : ℚ → ℚ) (piq : ℚ)
    (MajorRadius MinorRadius StartMinorAngleRad : ℚ)
    (MinorDivisions : ℕ) (angle : ℚ) : List Point :=
  (List.range MinorDivisions).map (fun (i : ℕ) =>
    rotZMatDeg cosd sind angle
      (MajorRadius +
        MinorRadius *
          cosf (piq * 2 * (i : ℚ) / (MinorDivisions : ℚ) + StartMinorAngleRad),
       0,
       MinorRadius *
         sinf (piq * 2 * (i : ℚ) / (MinorDivisions : ℚ) + StartMinorAngleRad)))

/-- Embedding of `Torus` from `mesh_torus.py` (lines 107-155): `MajorDivisions`
cross-section rings at `angle = da*i` degrees (`da =
360/MajorDivisions`), stitched with wrap-around
(`ring2 = MinorDivisions * ((i+1) % MajorDivisions)`).  The minor start
angle is converted by the source's own formula
`(StartMinorAngle * 2*pi)/180`.  `none` models the `ZeroDivisionError`
of `360.0/MajorDivisions`. -/
def Torus (cosf sinf cosd sind : ℚ → ℚ) (piq : ℚ)
    (MajorRadius MinorRadius : ℚ) (MajorDivisions MinorDivisions : ℕ)
    (StartMinorAngle : ℚ) (Smooth : Bool) : Option Mesh :=
  if MajorDivisions = 0 then none
  else
    let sma := StartMinorAngle * 2 * piq / 180
    let da := (360 : ℚ) / (MajorDivisions : ℚ)
    let verts := (List.range MajorDivisions).flatMap (fun (i : ℕ) =>
      torusRing cosf sinf cosd sind piq MajorRadius MinorRadius sma
        MinorDivisions (da * (i : ℚ)))
    let faces := (List.range MajorDivisions).flatMap (fun i =>
      (List.range MinorDivisions).map (fun j =>
        ([MinorDivisions * i + j,
          MinorDivisions * i + (j + 1) % MinorDivisions,
          MinorDivisions * ((i + 1) % MajorDivisions) +
            (j + 1) % MinorDivisions,
          MinorDivisions * ((i + 1) % MajorDivisions) + j], Smooth)))
    some ⟨verts, faces⟩

/-- The start-cap fan of `Torus2` (mesh_torus.py lines 212-220):
`MinorDivisions - 1` triangles `(verts[0], verts[i], verts[i+1])` for
`i` in `0 .. MinorDivisions-2`. -/
def torus2CapStartFaces (MinorDivisions : ℕ) (Smooth : Bool) : List Face :=
  (List.range (MinorDivisions - 1)).map (fun i => ([0, i, i + 1], Smooth))

/-- The end-cap fan of `Torus2` (mesh_torus.py lines 223-231):
`MinorDivisions - 1` triangles `(verts[-1], verts[-(i+1)], verts[-(i+2)])`
over the `L = MinorDivisions*(MajorDivisions+1)` vertices. -/
def torus2CapEndFaces (MajorDivisions MinorDivisions : ℕ) (Smooth : Bool) :
    List Face :=
  (List.range (MinorDivisions - 1)).map (fun i =>
    ([MinorDivisions * (MajorDivisions + 1) - 1,
      MinorDivisions * (MajorDivisions + 1) - (i + 1),
      MinorDivisions * (MajorDivisions + 1) - (i + 2)], Smooth))

/-- Embedding of `Torus2` from `mesh_torus.py` (lines 158-234): normalizes the major
angles via `min`/`max` (line 173), emits `MajorDivisions+1` rings at
`StartMajorAngle + da*i` degrees (`da =
(EndMajorAngle-StartMajorAngle)/MajorDivisions`), stitches them without
wrapping, then appends the optional start/end cap fans.  `none` models
the `ZeroDivisionError` of the `da` division. -/
def Torus2 (cosf sinf cosd sind : ℚ → ℚ) (piq : ℚ)
    (MajorRadius MinorRadius : ℚ) (MajorDivisions MinorDivisions : ℕ)
    (StartMajorAngle : ℚ) (CapStart : Bool) (EndMajorAngle : ℚ)
    (CapEnd : Bool) (StartMinorAngle : ℚ) (Smooth : Bool) : Option Mesh :=
  if MajorDivisions = 0 then none
  else
    let sma := StartMinorAngle * 2 * piq / 180
    let S := min StartMajorAngle EndMajorAngle
    let E := max StartMajorAngle EndMajorAngle
    let da := (E - S) / (MajorDivisions : ℚ)
    let verts := (List.range (MajorDivisions + 1)).flatMap (fun (i : ℕ) =>
      torusRing cosf sinf cosd sind piq MajorRadius MinorRadius sma
        MinorDivisions (S + da * (i : ℚ)))
    let skin := (List.range MajorDivisions).flatMap (fun i =>
      (List.range MinorDivisions).map (fun j =>
        ([MinorDivisions * i + j,
          MinorDivisions * i + (j + 1) % MinorDivisions,
          MinorDivisions * (i + 1) + (j + 1) % MinorDivisions,
          MinorDivisions * (i + 1) + j], Smooth)))
    let capS := if CapStart then torus2CapStartFaces MinorDivisions Smooth
      else []
    let capE :=
      if CapEnd then torus2CapEndFaces MajorDivisions MinorDivisions Smooth
      else []
    some ⟨verts, skin ++ capS ++ capE⟩

/-- Embedding of `MakeVertexRectange()` from `mesh_tube.py` (lines 108-145): the
cross-section polyline — `InnerDivisions` points up the inner wall,
`CapDivisions` across the top, `OuterDivisions` down the outer wall,
`CapDivisions` back across the bottom (reusing `dx`), all at `y = 0`. -/
def tubeSection (InnerRadius OuterRadius Height : ℚ)
    (InnerDivisions OuterDivisions CapDivisions : ℕ) : List Point :=
  let dzi := Height / (InnerDivisions : ℚ)
  let dx := (OuterRadius - InnerRadius) / (CapDivisions : ℚ)
  let dzo := Height / (OuterDivisions : ℚ)
  ((List.range InnerDivisions).map (fun (i : ℕ) =>
    (InnerRadius, 0, dzi * (i : ℚ)))) ++
  ((List.range CapDivisions).map (fun (i : ℕ) =>
    (InnerRadius + dx * (i : ℚ), 0, Height))) ++
  ((List.range OuterDivisions).map (fun (i : ℕ) =>
    (OuterRadius, 0, Height - dzo * (i : ℚ)))) ++
  ((List.range CapDivisions).map (fun (i : ℕ) =>
    (OuterRadius - dx * (i : ℚ), 0, 0)))

/-- The section angles (degrees) swept by `Tube` when `UseAngles` is
set (mesh_tube.py lines 177-180, 189-191): `Segments+1` angles starting
at `StartAngle` with signed step `(EndAngle-StartAngle)/Segments` —
no `min`/`max` normalization is applied. -/
def tubeAnglesCutDeg (Segments : ℕ) (StartAngle EndAngle : ℚ) : List ℚ :=
  (List.range (Segments + 1)).map (fun (i : ℕ) =>
    StartAngle + (EndAngle - StartAngle) / (Segments : ℚ) * (i : ℚ))

/-- The section angles (degrees) swept by `Tube` when `UseAngles` is
unset (mesh_tube.py lines 181-184): `Segments` angles from `0` in steps
of `360/Segments`. -/
def tubeAnglesFullDeg (Segments : ℕ) : List ℚ :=
  (List.range Segments).map (fun (i : ℕ) =>
    (360 : ℚ) / (Segments : ℚ) * (i : ℚ))

/-- Embedding of `RotateZvert`/`AddYRotatedVertexes` of `mesh_tube.py` (lines
147-165): rotation about Z by `angle` radians. -/
def rotZRad (cosf sinf : ℚ → ℚ) (angle : ℚ) (p : Point) : Point :=
  (cosf angle * p.1 - sinf angle * p.2.1,
   sinf angle * p.1 + cosf angle * p.2.1, p.2.2)

/-- Embedding of `Tube` from `mesh_tube.py` (lines 106-247): revolves the
cross-section polyline over the section angles (converted to radians by
`deg2rad`), stitches consecutive sections into `vps = 2*CapDivisions +
InnerDivisions + OuterDivisions` quads each (wrapping via
`(i+1) % segments` only in the full-revolution case), and — when
`UseAngles` — appends the two rotated cap-center vertices and fans each
boundary section around its center.  `none` models the
`ZeroDivisionError` of the four divisions (`Height/InnerDivisions`,
`(OuterRadius-InnerRadius)/CapDivisions`, `Height/OuterDivisions`, and
the per-step angle division by `Segments`). -/
def Tube (cosf sinf : ℚ → ℚ) (piq : ℚ)
    (InnerRadius OuterRadius Height : ℚ)
    (InnerDivisions OuterDivisions CapDivisions Segments : ℕ)
    (Smooth : Bool) (StartAngle EndAngle : ℚ) (UseAngles : Bool) :
    Option Mesh :=
  if InnerDivisions = 0 then none
  else if OuterDivisions = 0 then none
  else if CapDivisions = 0 then none
  else if Segments = 0 then none
  else
    let vert := tubeSection InnerRadius OuterRadius Height
      InnerDivisions OuterDivisions CapDivisions
    let anglesDeg := if UseAngles then tubeAnglesCutDeg Segments StartAngle EndAngle
      else tubeAnglesFullDeg Segments
    let segments := if UseAngles then Segments + 1 else Segments
    let sectionVerts := anglesDeg.flatMap (fun deg =>
      vert.map (rotZRad cosf sinf (piq * deg / 180)))
    let vps := 2 * CapDivisions + InnerDivisions + OuterDivisions
    let skin := (List.range Segments).flatMap (fun i =>
      (List.range vps).map (fun j =>
        ([vps * i + j, vps * i + (j + 1) % vps,
          vps * ((i + 1) % segments) + (j + 1) % vps,
          vps * ((i + 1) % segments) + j], Smooth)))
    if UseAngles then
      let X := (InnerRadius + OuterRadius) / 2
      let Z := Height / 2
      let verts := sectionVerts ++
        [rotZRad cosf sinf (piq * StartAngle / 180) (X, 0, Z),
         rotZRad cosf sinf (piq * EndAngle / 180) (X, 0, Z)]
      let L := vps * (Segments + 1) + 2
      let caps := (List.range vps).flatMap (fun i =>
        [([L - 2, i, (i + 1) % vps], Smooth),
         ([L - 1, L - (i + 3), L - ((i + 1) % vps + 3)], Smooth)])
      some ⟨verts, skin ++ caps⟩
    else
      some ⟨sectionVerts, skin⟩

/-- A constant stand-in trigonometric function with value 1 (used to
instantiate `cosf`/`cosd` at concrete inputs; it agrees with the real
cosine at angle 0, the only angle those instances evaluate). -/
def constOne : ℚ → ℚ := fun _ => 1

/-- A constant stand-in trigonometric function with value 0 (agrees
with the real sine at angle 0). -/
def constZero : ℚ → ℚ := fun _ => 0

/-- A face is degenerate when its vertex-index list repeats an index
(the triangle references the same vertex twice). -/
def isDegenerateFace (f : Face) : Bool := decide (¬ f.1.Nodup)

end BlenderGui

namespace BlenderGui

theorem mapOrFail_eq_none {α β : Type} (f : α → Option β) (l : List α)
    (x : α) (hx : x ∈ l) (hfx : f x = none) : mapOrFail f l = none := by
  induction l with
  | nil => cases hx
  | cons a as ih =>
    cases hx with
    | head => simp [mapOrFail, hfx]
    | tail _ h =>
      cases hfa : f a with
      | none => simp [mapOrFail, hfa]
      | some y => simp [mapOrFail, hfa, ih h]

end BlenderGui

namespace BlenderGui

theorem length_flatMap_const {α β : Type} (l : List α) (f : α → List β)
    (n : ℕ) (h : ∀ a ∈ l, (f a).length = n) :
    (l.flatMap f).length = l.length * n := by
  induction l with
  | nil => simp
  | cons a as ih =>
    rw [List.flatMap_cons, List.length_append, List.length_cons,
      h a (List.mem_cons_self a as),
      ih (fun x hx => h x (List.mem_cons_of_mem a hx))]
    ring

theorem length_flatMap_range {β : Type} (n S : ℕ) (f : ℕ → List β)
    (h : ∀ i, (f i).length = S) :
    ((List.range n).flatMap f).length = n * S := by
  rw [length_flatMap_const _ _ S (fun a _ => h a), List.length_range]

theorem flatMap_congr {α β : Type} (l : List α) (f g : α → List β)
    (h : ∀ a ∈ l, f a = g a) : l.flatMap f = l.flatMap g := by
  induction l with
  | nil => rfl
  | cons a as ih =>
    rw [List.flatMap_cons, List.flatMap_cons, h a (List.mem_cons_self a as),
      ih (fun x hx => h x (List.mem_cons_of_mem a hx))]

theorem length_makeVertexRing (cosf sinf : ℚ → ℚ) (piq : ℚ) (count : ℕ)
    (r z : ℚ) : (makeVertexRing cosf sinf piq count r z).length = count := by
  simp only [makeVertexRing, List.length_map, List.length_range]

theorem length_torusRing (cosf sinf cosd sind : ℚ → ℚ) (piq R r sma : ℚ)
    (N : ℕ) (angle : ℚ) :
    (torusRing cosf sinf cosd sind piq R r sma N angle).length = N := by
  simp only [torusRing, List.length_map, List.length_range]

theorem length_tubeSection (IR OR H : ℚ) (ID OD CD : ℕ) :
    (tubeSection IR OR H ID OD CD).length = 2 * CD + ID + OD := by
  simp only [tubeSection, List.length_append, List.length_map,
    List.length_range]
  ring

theorem Cylinder_counts (cosf sinf : ℚ → ℚ) (piq R H : ℚ)
    (S O C : ℕ) (sm : Bool) (hC : C ≠ 0) (hO : O ≠ 0) :
    (Cylinder cosf sinf piq R H S O C sm).map
        (fun m => (m.verts.length, m.faces.length))
      = some (S * (2 * C + O) + 2, S * (2 * C + O - 1) + 2 * S) := by
  simp only [Cylinder, if_neg hC, if_neg hO, Option.map_some',
    Option.some.injEq, Prod.mk.injEq]
  constructor
  · rw [List.length_append, List.length_append, List.length_append,
      length_flatMap_range C S _ (fun i => length_makeVertexRing _ _ _ _ _ _),
      length_flatMap_range O S _ (fun i => length_makeVertexRing _ _ _ _ _ _),
      length_flatMap_range C S _ (fun i => length_makeVertexRing _ _ _ _ _ _)]
    simp
    ring
  · rw [List.length_append,
      length_flatMap_range _ S _ (fun i => by simp),
      length_flatMap_range S 2 _ (fun i => by simp)]
    have h : 2 * (C - 1) + O + 1 = 2 * C + O - 1 := by omega
    rw [h]
    ring

end BlenderGui

namespace BlenderGui

theorem Disc_counts (cosf sinf : ℚ → ℚ) (piq IR OuterR : ℚ)
    (S D : ℕ) (hD : D ≠ 0) (hS : S ≠ 0) :
    (Disc cosf sinf piq IR OuterR S D).map
        (fun m => (m.verts.length, m.faces.length))
      = some (S * (D + 1), S * D) := by
  simp only [Disc, if_neg hD, if_neg hS, Option.map_some',
    Option.some.injEq, Prod.mk.injEq]
  constructor
  · rw [length_flatMap_range _ S _ (fun k => by simp)]
    ring
  · rw [length_flatMap_range D S _ (fun i => by simp)]
    ring

theorem Sphere_counts (cosf sinf : ℚ → ℚ) (piq R : ℚ)
    (U V : ℕ) (sm : Bool) (hV : V ≠ 0) :
    (Sphere cosf sinf piq R U V sm).map
        (fun m => (m.verts.length, m.faces.length))
      = some (U * (V - 1) + 2, U * (V - 2) + 2 * U) := by
  simp only [Sphere, if_neg hV, Option.map_some',
    Option.some.injEq, Prod.mk.injEq]
  constructor
  · rw [List.length_append,
      length_flatMap_range _ U _ (fun i => length_makeVertexRing _ _ _ _ _ _)]
    simp [Nat.mul_comm]
  · rw [List.length_append,
      length_flatMap_range _ U _ (fun i => by simp),
      length_flatMap_range U 2 _ (fun k => by simp)]
    ring

theorem Torus_counts (cosf sinf cosd sind : ℚ → ℚ) (piq R r sma : ℚ)
    (M N : ℕ) (sm : Bool) (hM : M ≠ 0) :
    (Torus cosf sinf cosd sind piq R r M N sma sm).map
        (fun m => (m.verts.length, m.faces.length))
      = some (M * N, M * N) := by
  simp only [Torus, if_neg hM, Option.map_some',
    Option.some.injEq, Prod.mk.injEq]
  constructor
  · rw [length_flatMap_range M N _ (fun i => length_torusRing _ _ _ _ _ _ _ _ _ _)]
  · rw [length_flatMap_range M N _ (fun i => by simp)]

theorem Tube_full_counts (cosf sinf : ℚ → ℚ) (piq IR OuterR H : ℚ)
    (ID OD CD S : ℕ) (sm : Bool) (SA EA : ℚ)
    (hID : ID ≠ 0) (hOD : OD ≠ 0) (hCD : CD ≠ 0) (hS : S ≠ 0) :
    (Tube cosf sinf piq IR OuterR H ID OD CD S sm SA EA false).map
        (fun m => (m.verts.length, m.faces.length))
      = some (S * (2 * CD + ID + OD), S * (2 * CD + ID + OD)) := by
  simp only [Tube, if_neg hID, if_neg hOD, if_neg hCD, if_neg hS,
    Bool.false_eq_true, if_false, Option.map_some',
    Option.some.injEq, Prod.mk.injEq]
  constructor
  · rw [length_flatMap_const _ _ (2 * CD + ID + OD) (fun a _ => by
      rw [List.length_map, length_tubeSection])]
    rw [tubeAnglesFullDeg, List.length_map, List.length_range]
  · rw [length_flatMap_range S (2 * CD + ID + OD) _ (fun i => by simp)]

end BlenderGui

namespace BlenderGui

theorem map_fst_of_map_pair {α : Type} {o : Option α} {f g : α → ℕ}
    {a b : ℕ} (h : o.map (fun m => (f m, g m)) = some (a, b)) :
    o.map f = some a := by
  cases o with
  | none => simp at h
  | some m =>
    simp only [Option.map_some', Option.some.injEq, Prod.mk.injEq] at h
    simp only [Option.map_some', Option.some.injEq]
    exact h.1

/-- C6 counterexample: `Cylinder(radius=1, height=3, segments=4,
outerDivisions=1, capDivisions=1)` emits 14 vertices (12 ring vertices
plus the 2 apex vertices appended at mesh_cylinder.py lines 155-156),
not `S*(2*C+O) = 12` as the claim states.  `constOne`/`constZero` stand
in for cos/sin; the vertex count does not depend on them. -/
theorem c6_counterexample :
    (Cylinder constOne constZero 3 1 3 4 1 1 true).map
        (fun m => m.verts.length) = some 14 ∧
    ¬ ((14 : ℕ) = 4 * (2 * 1 + 1)) := by decide

/-- C6 (amended): for segments `S ≥ 3`, outer divisions `O ≥ 1` and cap
divisions `C ≥ 1` the cylinder emits `S*(2*C+O) + 2` vertices (the ring
vertices plus the two apex vertices) and `S*(2*C+O-1)` skin quads plus
`2*S` cap triangles. -/
theorem c6_cylinder_counts_amended (cosf sinf : ℚ → ℚ) (piq R H : ℚ)
    (S O C : ℕ) (sm : Bool) (hS : 3 ≤ S) (hO : 1 ≤ O) (hC : 1 ≤ C) :
    (Cylinder cosf sinf piq R H S O C sm).map
        (fun m => (m.verts.length, m.faces.length))
      = some (S * (2 * C + O) + 2, S * (2 * C + O - 1) + 2 * S) :=
  Cylinder_counts cosf sinf piq R H S O C sm (by omega) (by omega)

/-- Witness for `c6_cylinder_counts_amended` at `S=4, O=1, C=1`. -/
theorem c6_cylinder_counts_amended_witness :
    (3 ≤ 4 ∧ 1 ≤ 1) ∧
    (Cylinder constOne constZero 3 1 3 4 1 1 true).map
        (fun m => (m.verts.length, m.faces.length)) = some (14, 16) :=
  ⟨⟨by norm_num, le_refl 1⟩,
   c6_cylinder_counts_amended constOne constZero 3 1 3 4 1 1 true
     (by norm_num) (le_refl 1) (le_refl 1)⟩

/-- C7: for `U ≥ 3`, `V ≥ 3` the full sphere emits `U*(V-1) + 2`
vertices (`V-1` latitude rings of `U` vertices plus the two poles) and
`U*(V-2)` skin quads plus `2*U` pole-fan triangles. -/
theorem c7_sphere_counts (cosf sinf : ℚ → ℚ) (piq R : ℚ) (U V : ℕ)
    (sm : Bool) (hU : 3 ≤ U) (hV : 3 ≤ V) :
    (Sphere cosf sinf piq R U V sm).map
        (fun m => (m.verts.length, m.faces.length))
      = some (U * (V - 1) + 2, U * (V - 2) + 2 * U) :=
  Sphere_counts cosf sinf piq R U V sm (by omega)

/-- Witness for `c7_sphere_counts` at `U=3, V=3`. -/
theorem c7_sphere_counts_witness :
    ((3 : ℕ) ≤ 3) ∧
    (Sphere constOne constZero 3 1 3 3 true).map
        (fun m => (m.verts.length, m.faces.length)) = some (8, 9) :=
  ⟨le_refl 3, c7_sphere_counts constOne constZero 3 1 3 3 true
    (le_refl 3) (le_refl 3)⟩

/-- C1 counterexample: the cylinder builder called with radius `-1`
(so radius ≤ 0) still emits its full 14 vertices and 16 faces — no
builder validates counts or radii, so generation does not abort. -/
theorem c1_counterexample :
    ((-1 : ℚ) ≤ 0) ∧
    (Cylinder constOne constZero 3 (-1) 1 4 1 1 true).map
        (fun m => (m.verts.length, m.faces.length)) = some (14, 16) ∧
    ¬ ((14 : ℕ) = 0) := by decide

/-- C1 (amended): the builders perform no parameter validation at all —
count minima and radius positivity are enforced only by the GUI widget
clamping.  Called directly with any radius (including ≤ 0) and any
nonzero division counts, every builder still emits its full vertex
list; the only way a builder aborts is the accidental
`ZeroDivisionError` when a divisor count is 0. -/
theorem c1_no_validation_amended (cosf sinf cosd sind : ℚ → ℚ)
    (piq R H IR OuterR r sma SA EA : ℚ) (S O C ID OD CD U V M N D : ℕ)
    (sm : Bool) (hC : C ≠ 0) (hO : O ≠ 0) (hD : D ≠ 0) (hS : S ≠ 0)
    (hV : V ≠ 0) (hM : M ≠ 0) (hID : ID ≠ 0) (hOD : OD ≠ 0)
    (hCD : CD ≠ 0) :
    (Cylinder cosf sinf piq R H S O C sm).map (fun m => m.verts.length)
      = some (S * (2 * C + O) + 2) ∧
    (Disc cosf sinf piq IR OuterR S D).map (fun m => m.verts.length)
      = some (S * (D + 1)) ∧
    (Sphere cosf sinf piq R U V sm).map (fun m => m.verts.length)
      = some (U * (V - 1) + 2) ∧
    (Torus cosf sinf cosd sind piq R r M N sma sm).map
        (fun m => m.verts.length) = some (M * N) ∧
    (Tube cosf sinf piq IR OuterR H ID OD CD S sm SA EA false).map
        (fun m => m.verts.length) = some (S * (2 * CD + ID + OD)) :=
  ⟨map_fst_of_map_pair (Cylinder_counts cosf sinf piq R H S O C sm hC hO),
   map_fst_of_map_pair (Disc_counts cosf sinf piq IR OuterR S D hD hS),
   map_fst_of_map_pair (Sphere_counts cosf sinf piq R U V sm hV),
   map_fst_of_map_pair (Torus_counts cosf sinf cosd sind piq R r sma M N sm hM),
   map_fst_of_map_pair
     (Tube_full_counts cosf sinf piq IR OuterR H ID OD CD S sm SA EA
       hID hOD hCD hS)⟩

/-- Witness for `c1_no_validation_amended`: all radii negative or zero,
all counts at their embedded minima. -/
theorem c1_no_validation_amended_witness :
    (Cylinder constOne constZero 3 (-1) 1 4 1 1 true).map
        (fun m => m.verts.length) = some (4 * (2 * 1 + 1) + 2) ∧
    (Disc constOne constZero 3 (-2) 0 4 1).map (fun m => m.verts.length)
      = some (4 * (1 + 1)) ∧
    (Sphere constOne constZero 3 (-1) 3 3 true).map
        (fun m => m.verts.length) = some (3 * (3 - 1) + 2) ∧
    (Torus constOne constZero constOne constZero 3 (-1) (-1) 3 3 0 true).map
        (fun m => m.verts.length) = some (3 * 3) ∧
    (Tube constOne constZero 3 (-2) 0 1 1 1 1 4 true 0 0 false).map
        (fun m => m.verts.length) = some (4 * (2 * 1 + 1 + 1)) :=
  c1_no_validation_amended constOne constZero constOne constZero
    3 (-1) 1 (-2) 0 (-1) 0 0 0 4 1 1 1 1 1 3 3 3 3 1 true
    (by norm_num) (by norm_num) (by norm_num) (by norm_num) (by norm_num)
    (by norm_num) (by norm_num) (by norm_num) (by norm_num)

end BlenderGui

namespace BlenderGui

/-- C2: `twist_mesh` with angle 0 on axis Z does not restore every
in-range vertex.  The baseline vertex `(1,1,0)` (with Z extent `[0,1]`,
full range, angle 0) comes back as `(1,0,0)`: the in-range branch calls
`rot_z` with rotation angle 0, and `rot_z` (mesh_twist.py line 134)
computes the second component as `x*s + y*s` — with `s = sin 0 = 0` the
`y` coordinate is zeroed instead of preserved.  `constOne`/`constZero`
agree with the real cos/sin at 0, the only angle evaluated here. -/
theorem c2_twist_angle_zero_changes_vertex :
    twist_mesh constOne constZero 3 0 0 0 0 0 1
        [((1 : ℚ), 1, 0), ((0 : ℚ), 0, 1)] TwistAxis.z 0 0 100
      = some [(1, 0, 0), (0, 0, 1)] ∧
    ¬ (((1 : ℚ), (0 : ℚ), (0 : ℚ)) = ((1 : ℚ), (1 : ℚ), (0 : ℚ))) := by
  constructor
  · norm_num [twist_mesh, mapOrFail, axisExtent, axisCoord, axisMin, axisRot,
      rot_z, constOne, constZero, min_def, max_def]
  · simp [Prod.ext_iff]

/-- C3 counterexample: a two-vertex mesh whose X extent is zero
(`min_x = max_x = 1`).  The twist on axis X is not a silent no-op: the
unguarded division `t = (x - min_x)/d` with `d = 0` raises
`ZeroDivisionError` (result `none`), rather than returning the vertices
unchanged. -/
theorem c3_counterexample :
    twist_mesh constOne constZero 3 1 1 0 0 0 0
        [((1 : ℚ), 2, 3), ((1 : ℚ), 5, 7)] TwistAxis.x 90 0 100 = none ∧
    ¬ (twist_mesh constOne constZero 3 1 1 0 0 0 0
        [((1 : ℚ), 2, 3), ((1 : ℚ), 5, 7)] TwistAxis.x 90 0 100
        = some [((1 : ℚ), 2, 3), ((1 : ℚ), 5, 7)]) := by
  have h : twist_mesh constOne constZero 3 1 1 0 0 0 0
      [((1 : ℚ), 2, 3), ((1 : ℚ), 5, 7)] TwistAxis.x 90 0 100 = none := by
    norm_num [twist_mesh, mapOrFail, axisExtent, axisCoord, axisMin]
  rw [h]
  exact ⟨rfl, by simp⟩

/-- C3 (amended): when the bounding-box extent along the chosen axis is
zero and the target mesh has at least one vertex, the division by the
extent is not guarded: `twist_mesh` raises `ZeroDivisionError`
(modelled as `none`) and no vertex is written back.  Only an empty
vertex list makes the degenerate case a silent no-op. -/
theorem c3_degenerate_extent_raises (cosf sinf : ℚ → ℚ)
    (piq mnx mxx mny mxy mnz mxz : ℚ) (vs : List Point) (axis : TwistAxis)
    (A SF EA : ℚ)
    (hd : axisExtent mnx mxx mny mxy mnz mxz axis = 0) (hne : vs ≠ []) :
    twist_mesh cosf sinf piq mnx mxx mny mxy mnz mxz vs axis A SF EA
      = none := by
  obtain ⟨v, vs', rfl⟩ := List.exists_cons_of_ne_nil hne
  simp only [twist_mesh]
  apply mapOrFail_eq_none _ _ v (List.mem_cons_self v vs')
  simp [hd]

/-- Witness for `c3_degenerate_extent_raises` on a one-vertex mesh with
zero X extent. -/
theorem c3_degenerate_extent_raises_witness :
    twist_mesh constOne constZero 3 2 2 0 0 0 0 [((2 : ℚ), 0, 0)]
      TwistAxis.x 45 10 90 = none :=
  c3_degenerate_extent_raises constOne constZero 3 2 2 0 0 0 0
    [((2 : ℚ), 0, 0)] TwistAxis.x 45 10 90 (by norm_num [axisExtent])
    (by simp)

/-- C9: if the start and end percentages are equal and some vertex's
normalized axis fraction `t` equals that common value, the in-range
branch computes `Angle*(t - StartFrom)/rd` with `rd = 0`: `twist_mesh`
raises `ZeroDivisionError` (result `none`) instead of applying a zero
rotation or skipping the vertex. -/
theorem c9_twist_equal_range_division_by_zero (cosf sinf : ℚ → ℚ)
    (piq mnx mxx mny mxy mnz mxz : ℚ) (vs : List Point) (axis : TwistAxis)
    (A SF : ℚ) (v : Point) (hv : v ∈ vs)
    (ht : (axisCoord axis v - axisMin mnx mny mnz axis) /
        axisExtent mnx mxx mny mxy mnz mxz axis = SF / 100) :
    twist_mesh cosf sinf piq mnx mxx mny mxy mnz mxz vs axis A SF SF
      = none := by
  simp only [twist_mesh]
  apply mapOrFail_eq_none _ _ v hv
  by_cases hd : axisExtent mnx mxx mny mxy mnz mxz axis = 0
  · simp [hd]
  · rw [if_neg hd, min_self, max_self, ht, if_pos ⟨le_refl _, le_refl _⟩,
      if_pos (sub_self _)]

/-- Witness for `c9_twist_equal_range_division_by_zero`: axis X,
extent `[0,1]`, start = end = 0, and the vertex `(0,5,5)` has `t = 0`.
-/
theorem c9_twist_equal_range_division_by_zero_witness :
    twist_mesh constOne constZero 3 0 1 0 0 0 0 [((0 : ℚ), 5, 5)]
      TwistAxis.x 90 0 0 = none :=
  c9_twist_equal_range_division_by_zero constOne constZero 3 0 1 0 0 0 0
    [((0 : ℚ), 5, 5)] TwistAxis.x 90 0 ((0 : ℚ), 5, 5)
    (List.mem_cons_self _ _) (by norm_num [axisCoord, axisMin, axisExtent])

end BlenderGui

namespace BlenderGui

theorem countP_range_eq_one (p : ℕ → Bool) (n : ℕ) (hn : 0 < n)
    (h0 : p 0 = true) (h1 : ∀ i, 0 < i → i < n → p i = false) :
    (List.range n).countP p = 1 := by
  obtain ⟨m, rfl⟩ := Nat.exists_eq_succ_of_ne_zero (Nat.pos_iff_ne_zero.mp hn)
  rw [List.range_succ_eq_map, List.countP_cons, List.countP_map]
  have hz : List.countP (p ∘ Nat.succ) (List.range m) = 0 := by
    rw [List.countP_eq_zero]
    intro a ha
    have halt : a < m := List.mem_range.mp ha
    simp only [Function.comp_apply]
    rw [h1 (a + 1) (Nat.succ_pos a) (by omega)]
    simp
  rw [hz, h0]
  simp

theorem countP_map_range (p : Face → Bool) (g : ℕ → Face) (n : ℕ) :
    ((List.range n).map g).countP p = (List.range n).countP (fun i => p (g i))
    := by
  rw [List.countP_map]
  rfl

/-- C10: in the cut torus, each enabled cap fan contains exactly one
degenerate triangle.  The start cap's fan loop begins at `i = 0`,
producing `(verts[0], verts[0], verts[1])`; the end cap's first face is
`(verts[-1], verts[-1], verts[-2])`, referencing the last vertex
(index `N*(M+1)-1`) twice.  Each cap has `MinorDivisions - 1` faces and
exactly one of them is degenerate; `Torus2` with both caps enabled
appends exactly these two fans after its `M*N` skin quads. -/
theorem c10_torus2_cap_degenerate_triangles (cosf sinf cosd sind : ℚ → ℚ)
    (piq R r a b sma : ℚ) (M N : ℕ) (sm : Bool) (hM : 3 ≤ M) (hN : 3 ≤ N) :
    (torus2CapStartFaces N sm).head? = some ([0, 0, 1], sm) ∧
    (torus2CapEndFaces M N sm).head?
      = some ([N * (M + 1) - 1, N * (M + 1) - 1, N * (M + 1) - 2], sm) ∧
    (torus2CapStartFaces N sm).length = N - 1 ∧
    (torus2CapEndFaces M N sm).length = N - 1 ∧
    (torus2CapStartFaces N sm).countP isDegenerateFace = 1 ∧
    (torus2CapEndFaces M N sm).countP isDegenerateFace = 1 ∧
    (Torus2 cosf sinf cosd sind piq R r M N a true b true sma sm).map
        (fun m => m.faces.drop (M * N))
      = some (torus2CapStartFaces N sm ++ torus2CapEndFaces M N sm) := by
  have hN0 : N ≠ 0 := by omega
  have hM0 : M ≠ 0 := by omega
  have h9 : 9 ≤ N * M := Nat.mul_le_mul hN hM
  have hNM : N * (M + 1) = N * M + N := by ring
  obtain ⟨m, hm⟩ : ∃ m, N - 1 = m + 1 := ⟨N - 2, by omega⟩
  refine ⟨?_, ?_, ?_, ?_, ?_, ?_, ?_⟩
  · rw [torus2CapStartFaces, hm, List.range_succ_eq_map]
    rfl
  · rw [torus2CapEndFaces, hm, List.range_succ_eq_map]
    rfl
  · simp [torus2CapStartFaces]
  · simp [torus2CapEndFaces]
  · rw [torus2CapStartFaces, countP_map_range]
    apply countP_range_eq_one _ _ (by omega)
    · rw [isDegenerateFace]
      simp
    · intro i hi _
      rw [isDegenerateFace]
      simp only [decide_eq_false_iff_not, Decidable.not_not]
      simp only [List.nodup_cons, List.mem_cons, List.mem_singleton,
        List.nodup_nil, List.not_mem_nil, or_false, and_true,
        not_false_eq_true]
      omega
  · rw [torus2CapEndFaces, countP_map_range]
    apply countP_range_eq_one _ _ (by omega)
    · rw [isDegenerateFace]
      simp
    · intro i hi hilt
      rw [isDegenerateFace]
      simp only [decide_eq_false_iff_not, Decidable.not_not]
      simp only [List.nodup_cons, List.mem_cons, List.mem_singleton,
        List.nodup_nil, List.not_mem_nil, or_false, and_true,
        not_false_eq_true]
      omega
  · simp only [Torus2, if_neg hM0, Option.map_some', Option.some.injEq,
      if_true]
    rw [List.append_assoc]
    rw [List.drop_left' (length_flatMap_range M N _ (fun i => by simp))]

end BlenderGui

namespace BlenderGui

/-- Witness for `c10_torus2_cap_degenerate_triangles` at
`MajorDivisions = MinorDivisions = 3`. -/
theorem c10_torus2_cap_degenerate_triangles_witness :
    (torus2CapStartFaces 3 true).head? = some ([0, 0, 1], true) ∧
    (torus2CapEndFaces 3 3 true).head?
      = some ([3 * (3 + 1) - 1, 3 * (3 + 1) - 1, 3 * (3 + 1) - 2], true) ∧
    (torus2CapStartFaces 3 true).length = 3 - 1 ∧
    (torus2CapEndFaces 3 3 true).length = 3 - 1 ∧
    (torus2CapStartFaces 3 true).countP isDegenerateFace = 1 ∧
    (torus2CapEndFaces 3 3 true).countP isDegenerateFace = 1 ∧
    (Torus2 constOne constZero constOne constZero 3 1 1 3 3 0 true 360 true
        0 true).map (fun m => m.faces.drop (3 * 3))
      = some (torus2CapStartFaces 3 true ++ torus2CapEndFaces 3 3 true) :=
  c10_torus2_cap_degenerate_triangles constOne constZero constOne constZero
    3 1 1 0 360 0 3 3 true (le_refl 3) (le_refl 3)

end BlenderGui

namespace BlenderGui

theorem Torus2_swap (cosf sinf cosd sind : ℚ → ℚ) (piq R r a b sma : ℚ)
    (M N : ℕ) (capS capE sm : Bool) :
    Torus2 cosf sinf cosd sind piq R r M N a capS b capE sma sm
      = Torus2 cosf sinf cosd sind piq R r M N b capS a capE sma sm := by
  simp only [Torus2]
  rw [min_comm b a, max_comm b a]

theorem twist_mesh_swap (cosf sinf : ℚ → ℚ)
    (piq mnx mxx mny mxy mnz mxz A SF EA : ℚ) (vs : List Point)
    (axis : TwistAxis) :
    twist_mesh cosf sinf piq mnx mxx mny mxy mnz mxz vs axis A SF EA
      = twist_mesh cosf sinf piq mnx mxx mny mxy mnz mxz vs axis A EA SF := by
  simp only [twist_mesh]
  rw [min_comm EA SF, max_comm EA SF]

theorem tubeAnglesCutDeg_reverse (S : ℕ) (hS : S ≠ 0) (a b : ℚ) :
    (tubeAnglesCutDeg S a b).reverse = tubeAnglesCutDeg S b a := by
  have hSQ : (S : ℚ) ≠ 0 := Nat.cast_ne_zero.mpr hS
  apply List.ext_getElem
  · simp [tubeAnglesCutDeg]
  · intro i h1 h2
    have hi : i < S + 1 := by
      simpa [tubeAnglesCutDeg] using h2
    simp only [tubeAnglesCutDeg, List.getElem_reverse, List.getElem_map,
      List.getElem_range, List.length_map, List.length_range]
    have hcast : (((S + 1 - 1 - i : ℕ)) : ℚ) = (S : ℚ) - (i : ℚ) := by
      rw [Nat.cast_sub (by omega)]
      push_cast
      ring
    rw [hcast]
    field_simp
    ring

/-- C8 counterexample: the tube's section-angle sweep is not
normalized — `Tube` called with start 90, end 0 uses the angle sequence
`[90, 60, 30, 0]` (starting at the raw start angle with a negative
step), not the sequence `[0, 30, 60, 90]` of the `min`/`max`-normalized
range, so the emitted vertex sequence differs between `(a, b)` and
`(b, a)`. -/
theorem c8_counterexample :
    tubeAnglesCutDeg 3 90 0 = [90, 60, 30, 0] ∧
    tubeAnglesCutDeg 3 (min (90 : ℚ) 0) (max (90 : ℚ) 0) = [0, 30, 60, 90] ∧
    ¬ (tubeAnglesCutDeg 3 90 0
        = tubeAnglesCutDeg 3 (min (90 : ℚ) 0) (max (90 : ℚ) 0)) := by
  have h1 : tubeAnglesCutDeg 3 90 0 = [90, 60, 30, 0] := by
    norm_num [tubeAnglesCutDeg, List.range_succ]
  have h2 : tubeAnglesCutDeg 3 (min (90 : ℚ) 0) (max (90 : ℚ) 0)
      = [0, 30, 60, 90] := by
    norm_num [tubeAnglesCutDeg, List.range_succ, min_def, max_def]
  refine ⟨h1, h2, ?_⟩
  rw [h1, h2]
  intro h
  exact absurd (List.head_eq_of_cons_eq h) (by norm_num)

/-- C8 (amended): the cut torus normalizes its major angle range via
`min`/`max` and the twist deformer normalizes its percentage range the
same way, so both are invariant under swapping the two bounds; the tube
does not normalize — it sweeps from the raw start angle with signed
step `(end-start)/Segments`, so swapping the bounds reverses the
section-angle sequence instead of leaving it unchanged. -/
theorem c8_angle_range_normalization (cosf sinf cosd sind : ℚ → ℚ)
    (piq R r a b sma A SF EA mnx mxx mny mxy mnz mxz : ℚ) (M N : ℕ)
    (capS capE sm : Bool) (vs : List Point) (axis : TwistAxis) (S : ℕ)
    (hS : S ≠ 0) :
    Torus2 cosf sinf cosd sind piq R r M N a capS b capE sma sm
      = Torus2 cosf sinf cosd sind piq R r M N b capS a capE sma sm ∧
    twist_mesh cosf sinf piq mnx mxx mny mxy mnz mxz vs axis A SF EA
      = twist_mesh cosf sinf piq mnx mxx mny mxy mnz mxz vs axis A EA SF ∧
    (tubeAnglesCutDeg S a b).reverse = tubeAnglesCutDeg S b a :=
  ⟨Torus2_swap cosf sinf cosd sind piq R r a b sma M N capS capE sm,
   twist_mesh_swap cosf sinf piq mnx mxx mny mxy mnz mxz A SF EA vs axis,
   tubeAnglesCutDeg_reverse S hS a b⟩

/-- Witness for `c8_angle_range_normalization` at concrete arguments
(torus angles 90/0, twist range 25/75, tube `S = 3`). -/
theorem c8_angle_range_normalization_witness :
    Torus2 constOne constZero constOne constZero 3 1 1 3 3 90 true 0 false
        0 true
      = Torus2 constOne constZero constOne constZero 3 1 1 3 3 0 true 90
          false 0 true ∧
    twist_mesh constOne constZero 3 0 1 0 0 0 0 [((0 : ℚ), 5, 5)]
        TwistAxis.x 90 25 75
      = twist_mesh constOne constZero 3 0 1 0 0 0 0 [((0 : ℚ), 5, 5)]
          TwistAxis.x 90 75 25 ∧
    (tubeAnglesCutDeg 3 90 0).reverse = tubeAnglesCutDeg 3 0 90 :=
  c8_angle_range_normalization constOne constZero constOne constZero
    3 1 1 90 0 0 90 25 75 0 1 0 0 0 0 3 3 true false true
    [((0 : ℚ), 5, 5)] TwistAxis.x 3 (by norm_num)

end BlenderGui

namespace BlenderGui

/-- C4 counterexample: at clip-percent 0 the code computes clip
latitude `acos(1 - 0/50) = acos 1 = 0` degrees and the clip plane
height `min_z = Radius * cos 0 = +Radius` — the degenerate top of the
sphere, i.e. nothing is kept.  The claim says clip-percent 0 keeps the
full sphere, which would put the clip plane at `-Radius`. -/
theorem c4_counterexample :
    sphere2RangDeg 0 = 0 ∧ sphere2MinZ 1 0 = 1 ∧ ¬ ((1 : ℝ) = -1) := by
  have h1 : sphere2RangDeg 0 = 0 := by
    rw [sphere2RangDeg, sphere2NormZ]
    norm_num [Real.arccos_one]
  refine ⟨h1, ?_, by norm_num⟩
  rw [sphere2MinZ, h1]
  norm_num [Real.cos_zero]

/-- C4 (amended): the clip latitude (in radians) is
`acos(1 - 2*clipPercent/100)` exactly as the claim's formula states,
and the emitted latitude rings all lie between the pole (0°) and the
clip latitude — but the clip-percent direction is the reverse of the
claim: clip 100 keeps the full sphere (clip plane at `-Radius`,
latitude 180°) and clip 0 keeps nothing (clip plane at `+Radius`,
latitude 0°). -/
theorem c4_sphere2_clip (clip R : ℝ) (V : ℕ) :
    sphere2RangDeg clip * Real.pi / 180
      = Real.arccos (1 - 2 * clip / 100) ∧
    sphere2MinZ R 100 = -R ∧
    sphere2MinZ R 0 = R ∧
    (∀ x ∈ sphere2RingAngles clip V, 0 ≤ x ∧ x ≤ sphere2RangDeg clip) := by
  have hpi : Real.pi ≠ 0 := Real.pi_ne_zero
  refine ⟨?_, ?_, ?_, ?_⟩
  · rw [sphere2RangDeg, sphere2NormZ,
      show (1 : ℝ) - clip / 50 = 1 - 2 * clip / 100 by ring]
    field_simp
  · rw [sphere2MinZ, sphere2RangDeg, sphere2NormZ,
      show (1 : ℝ) - 100 / 50 = -1 by norm_num, Real.arccos_neg_one]
    have e1 : (180 : ℝ) * Real.pi / Real.pi / 180 * Real.pi = Real.pi := by
      field_simp
    rw [e1, Real.cos_pi]
    ring
  · rw [sphere2MinZ, sphere2RangDeg, sphere2NormZ]
    norm_num [Real.arccos_one, Real.cos_zero]
  · intro x hx
    simp only [sphere2RingAngles, List.mem_map, List.mem_range] at hx
    obtain ⟨i, hi, rfl⟩ := hx
    have hV : 0 < V := by omega
    have hVQ : (0 : ℝ) < (V : ℝ) := by exact_mod_cast hV
    have hrang : 0 ≤ sphere2RangDeg clip := by
      rw [sphere2RangDeg]
      apply div_nonneg _ (le_of_lt Real.pi_pos)
      exact mul_nonneg (by norm_num) (Real.arccos_nonneg _)
    have hstep : 0 ≤ sphere2RangDeg clip / (V : ℝ) :=
      div_nonneg hrang (le_of_lt hVQ)
    have hiV : (i : ℝ) ≤ (V : ℝ) := by exact_mod_cast (by omega : i ≤ V)
    have hle : sphere2RangDeg clip / (V : ℝ) * (i : ℝ)
        ≤ sphere2RangDeg clip := by
      calc sphere2RangDeg clip / (V : ℝ) * (i : ℝ)
          ≤ sphere2RangDeg clip / (V : ℝ) * (V : ℝ) :=
            mul_le_mul_of_nonneg_left hiV hstep
        _ = sphere2RangDeg clip := div_mul_cancel₀ _ (ne_of_gt hVQ)
    have hge : 0 ≤ sphere2RangDeg clip / (V : ℝ) * (i : ℝ) :=
      mul_nonneg hstep (Nat.cast_nonneg i)
    constructor
    · linarith
    · linarith

end BlenderGui

namespace BlenderGui

theorem map_flatMap_lists {α β γ : Type} (g : β → γ) (f : α → List β)
    (l : List α) :
    (l.flatMap f).map g = l.flatMap (fun a => (f a).map g) := by
  induction l with
  | nil => rfl
  | cons a as ih =>
    rw [List.flatMap_cons, List.flatMap_cons, List.map_append, ih]

theorem ring_index_lt (M N i j : ℕ) (hi : i < M) (hj : j < N) :
    N * i + j < N * M := by
  calc N * i + j < N * i + N := by omega
    _ = N * (i + 1) := by ring
    _ ≤ N * M := Nat.mul_le_mul_left N (by omega)

theorem seam_index_mod (M N i j : ℕ) (hi : i < M) (hj : j < N) :
    (N * (i + 1) + j) % (N * M) = N * ((i + 1) % M) + j := by
  rcases Nat.lt_or_ge (i + 1) M with h | h
  · rw [Nat.mod_eq_of_lt (ring_index_lt M N (i + 1) j h hj),
      Nat.mod_eq_of_lt h]
  · have hiM : i + 1 = M := by omega
    rw [hiM, Nat.mod_self, Nat.mul_zero, Nat.zero_add, Nat.add_mod_left]
    have hNM : N ≤ N * M := by
      calc N = N * 1 := by ring
        _ ≤ N * M := Nat.mul_le_mul_left N (by omega)
    exact Nat.mod_eq_of_lt (by omega)

theorem torusRing_360 (cosf sinf cosd sind : ℚ → ℚ) (piq R r smaRad : ℚ)
    (N : ℕ) (hcd : cosd 360 = cosd 0) (hsd : sind 360 = sind 0) :
    torusRing cosf sinf cosd sind piq R r smaRad N 360
      = torusRing cosf sinf cosd sind piq R r smaRad N 0 := by
  simp only [torusRing, rotZMatDeg, hcd, hsd]

end BlenderGui

namespace BlenderGui

/-- C5: the cut torus built with start 0°, end 360° and both caps
disabled is topologically equivalent to the full-revolution torus with
the same divisions: the face counts agree; collapsing the duplicated
seam ring by taking every vertex index modulo `N*M` turns the cut
torus's face list into exactly the full torus's face list (so the
connectivity agrees everywhere except that the last strip references
the duplicate ring `M` instead of wrapping to ring 0); and the cut
torus's vertex list is the full torus's vertex list with a duplicate of
the first ring appended (`cos`/`sin` at 360° equal their values at 0°).
-/
theorem c5_cut_torus_equiv_full (cosf sinf cosd sind : ℚ → ℚ)
    (piq R r sma : ℚ) (M N : ℕ) (sm : Bool) (hM : 3 ≤ M) (hN : 3 ≤ N)
    (hcd : cosd 360 = cosd 0) (hsd : sind 360 = sind 0) :
    (Torus2 cosf sinf cosd sind piq R r M N 0 false 360 false sma sm).map
        (fun m => m.faces.length)
      = (Torus cosf sinf cosd sind piq R r M N sma sm).map
          (fun m => m.faces.length) ∧
    (Torus2 cosf sinf cosd sind piq R r M N 0 false 360 false sma sm).map
        (fun m => m.faces.map (fun f => (f.1.map (fun v => v % (N * M)),
          f.2)))
      = (Torus cosf sinf cosd sind piq R r M N sma sm).map
          (fun m => m.faces) ∧
    (Torus2 cosf sinf cosd sind piq R r M N 0 false 360 false sma sm).map
        (fun m => m.verts)
      = (Torus cosf sinf cosd sind piq R r M N sma sm).map
          (fun m => m.verts ++ m.verts.take N) := by
  have hM0 : M ≠ 0 := by omega
  have hN0 : N ≠ 0 := by omega
  have hMQ : (M : ℚ) ≠ 0 := Nat.cast_ne_zero.mpr hM0
  have hmin : min (0 : ℚ) 360 = 0 := by norm_num
  have hmax : max (0 : ℚ) 360 = 360 := by norm_num
  refine ⟨?_, ?_, ?_⟩
  · simp only [Torus, Torus2, if_neg hM0, Option.map_some',
      Option.some.injEq, Bool.false_eq_true, if_false, List.append_nil]
    rw [length_flatMap_range M N _ (fun i => by simp),
      length_flatMap_range M N _ (fun i => by simp)]
  · simp only [Torus, Torus2, if_neg hM0, Option.map_some',
      Option.some.injEq, Bool.false_eq_true, if_false, List.append_nil]
    rw [map_flatMap_lists]
    apply flatMap_congr
    intro i hi
    have hi' : i < M := List.mem_range.mp hi
    rw [List.map_map]
    apply List.map_congr_left
    intro j hj
    have hj' : j < N := List.mem_range.mp hj
    have hj1 : (j + 1) % N < N := Nat.mod_lt _ (by omega)
    simp only [Function.comp_apply, Prod.mk.injEq, List.map_cons,
      List.map_nil]
    rw [Nat.mod_eq_of_lt (ring_index_lt M N i j hi' hj'),
      Nat.mod_eq_of_lt (ring_index_lt M N i ((j + 1) % N) hi' hj1),
      seam_index_mod M N i ((j + 1) % N) hi' hj1,
      seam_index_mod M N i j hi' hj']
    exact ⟨rfl, trivial⟩
  · simp only [Torus, Torus2, if_neg hM0, Option.map_some',
      Option.some.injEq, hmin, hmax]
    rw [List.range_succ, List.flatMap_append, List.flatMap_cons,
      List.flatMap_nil, List.append_nil]
    have htake :
        ((List.range M).flatMap (fun (i : ℕ) =>
            torusRing cosf sinf cosd sind piq R r (sma * 2 * piq / 180) N
              ((360 : ℚ) / (M : ℚ) * (i : ℚ)))).take N
          = torusRing cosf sinf cosd sind piq R r (sma * 2 * piq / 180) N
              ((360 : ℚ) / (M : ℚ) * ((0 : ℕ) : ℚ)) := by
      obtain ⟨M', rfl⟩ : ∃ M', M = M' + 1 := ⟨M - 1, by omega⟩
      rw [List.range_succ_eq_map, List.flatMap_cons]
      exact List.take_left' (length_torusRing _ _ _ _ _ _ _ _ _ _)
    rw [htake]
    congr 1
    · apply flatMap_congr
      intro i _
      congr 1
      ring
    · have hang : (0 : ℚ) + (360 - 0) / (M : ℚ) * (M : ℚ) = 360 := by
        field_simp
      rw [hang, torusRing_360 cosf sinf cosd sind piq R r _ N hcd hsd]
      congr 1
      norm_num

end BlenderGui

namespace BlenderGui

/-- Witness for `c5_cut_torus_equiv_full` at
`MajorDivisions = MinorDivisions = 3` (the stand-in `cos`/`sin` are
constant, so their values at 360° and 0° agree). -/
theorem c5_cut_torus_equiv_full_witness :
    (Torus2 constOne constZero constOne constZero 3 1 1 3 3 0 false 360
        false 0 true).map (fun m => m.faces.length)
      = (Torus constOne constZero constOne constZero 3 1 1 3 3 0 true).map
          (fun m => m.faces.length) ∧
    (Torus2 constOne constZero constOne constZero 3 1 1 3 3 0 false 360
        false 0 true).map
        (fun m => m.faces.map (fun f => (f.1.map (fun v => v % (3 * 3)),
          f.2)))
      = (Torus constOne constZero constOne constZero 3 1 1 3 3 0 true).map
          (fun m => m.faces) ∧
    (Torus2 constOne constZero constOne constZero 3 1 1 3 3 0 false 360
        false 0 true).map (fun m => m.verts)
      = (Torus constOne constZero constOne constZero 3 1 1 3 3 0 true).map
          (fun m => m.verts ++ m.verts.take 3) :=
  c5_cut_torus_equiv_full constOne constZero constOne constZero 3 1 1 0 3 3
    true (le_refl 3) (le_refl 3) rfl rfl

end BlenderGui
